import Mathlib

/-!
# StoryJupyter: verification of the chapter-versioned timeline and character store

Shallow embedding of the StoryJupyter repository's core logic:

* `src/storyjupyter/domain/models.py` — `Pronouns`, `Relationship`, `Character`,
  `StoryElement`, `StoryMetadata`;
* `src/storyjupyter/persistence/dummy.py` — `DummyStoryRepository`, the in-memory
  backing store;
* `src/storyjupyter/story.py` — the `Story` session orchestrator;
* `src/storyjupyter/generation/faker.py` — `FakerCharacterGenerator`;
* `storyjupyter/story.py` — `StoryManager.create_character` (duplicate-id check).

Modelling conventions:

* Python `datetime` values are modelled as integers (`StoryTime := Int`,
  an offset from the epoch after normalization to the reference timezone UTC);
  on this representation `StoryTime.ensure_tz` is the identity, since attaching
  the UTC timezone to a naive datetime does not change the instant the code
  subsequently compares and stores.
* Python exceptions become `Except StoryErr`; a mutating method that may raise
  returns `State × Except StoryErr α`, the first component being the state at
  the moment of the raise (the checked guards in this code raise before any
  mutation, which the definitions mirror).
* Python `dict`s (insertion-ordered, first-match lookup, in-place value update)
  are association lists with the helpers `dictGet` / `dictSet`.
* `uuid4()` results and `datetime.now()` wall-clock reads are nondeterministic
  inputs; they are passed to the embedded operations as explicit arguments
  (`freshId`, `now`).
-/

namespace StoryJupyter

/-- Story timestamps, normalized to the reference timezone (UTC): modelled as an
integer offset from the epoch. -/
abbrev StoryTime := Int

/-- `StoryTime.ensure_tz` (domain/time.py): on the normalized integer
representation, attaching the UTC timezone is the identity. -/
def StoryTime.ensure_tz (t : StoryTime) : StoryTime := t

/-- Values stored in a character's free-form attribute map
(string / int / `None`, the cases the embedded code produces). -/
inductive AttrVal where
  | str (s : String)
  | int (n : Int)
  | nullv
deriving DecidableEq, Repr

/-- Error taxonomy of the embedded code: Python exception classes raised by the
modelled operations (domain/exceptions.py plus the built-ins the code uses). -/
inductive StoryErr where
  | uninitializedStory (msg : String)
  | uninitializedLocation (msg : String)
  | valueError (msg : String)
  | keyError (msg : String)
deriving DecidableEq, Repr

/-- `Pronouns` (domain/models.py): immutable pronoun set with the five
grammatical forms. -/
structure Pronouns where
  subject : String
  object : String
  possessive : String
  possessive_pronoun : String
  reflexive : String
deriving DecidableEq, Repr

/-- `Pronouns.from_subject` (domain/models.py): expand a subject selector into
the full pronoun set; raises `ValueError` on an unknown selector. -/
def Pronouns.from_subject (subject : String) : Except StoryErr Pronouns :=
  if subject = "he" then
    .ok ⟨"he", "him", "his", "his", "himself"⟩
  else if subject = "she" then
    .ok ⟨"she", "her", "her", "hers", "herself"⟩
  else if subject = "they" then
    .ok ⟨"they", "them", "their", "theirs", "themselves"⟩
  else
    .error (.valueError ("Unknown pronoun: " ++ subject))

/-- `Relationship` (domain/models.py). -/
structure Relationship where
  type : String
  description : Option String
deriving DecidableEq, Repr

/-- `Character` (domain/models.py).  Identifiers are the `str(...)` image of the
Python `UUID`-or-string id, which is how every map in the code keys them. -/
structure Character where
  id : String
  first_name : String
  middle_names : List String
  last_name : String
  pronouns : Option Pronouns
  chapter_introduced : Option Int
  attributes : List (String × AttrVal)
  relationships : List (String × Relationship)
deriving DecidableEq, Repr

/-- `StoryElement` (domain/models.py, the `StoryEvent` dataclass shape the rest
of the package stores): immutable authored unit; `__post_init__` has already
normalized `time` to the reference timezone. -/
structure StoryElement where
  id : String
  time : StoryTime
  location : String
  content : String
  chapter : Int
  characters : List String
deriving DecidableEq, Repr

/-- `StoryMetadata` (domain/models.py). -/
structure StoryMetadata where
  title : String
  author : String
  created_at : StoryTime
  last_modified : StoryTime
deriving DecidableEq, Repr

/-- First-match association-list lookup: Python `dict` access / `dict.get`. -/
def dictGet {α : Type} : List (String × α) → String → Option α
  | [], _ => none
  | (k0, v0) :: rest, k => if k0 = k then some v0 else dictGet rest k

/-- Python `d[k] = v`: replace the value in place if the key is present,
otherwise append the new binding (insertion order preserved). -/
def dictSet {α : Type} : List (String × α) → String → α → List (String × α)
  | [], k, v => [(k, v)]
  | (k0, v0) :: rest, k, v =>
      if k0 = k then (k0, v) :: rest else (k0, v0) :: dictSet rest k v

/-- Python `dict.update`: apply `dictSet` for each binding of the update, in
order. -/
def dictUpdate {α : Type} (d : List (String × α)) (kvs : List (String × α)) :
    List (String × α) :=
  kvs.foldl (fun acc kv => dictSet acc kv.1 kv.2) d

/-- `DummyStoryRepository` (persistence/dummy.py): in-memory backing store.
`characters` is the `dict` keyed by `str(character.id)`; `elements` is the
plain list. -/
structure DummyStoryRepository where
  metadata : Option StoryMetadata
  characters : List (String × Character)
  elements : List StoryElement
deriving DecidableEq, Repr

namespace DummyStoryRepository

/-- `save_metadata`. -/
def save_metadata (repo : DummyStoryRepository) (m : StoryMetadata) :
    DummyStoryRepository :=
  { repo with metadata := some m }

/-- `save_character`: raises `ValueError` if the id already exists, otherwise
inserts the new binding. -/
def save_character (repo : DummyStoryRepository) (c : Character) :
    DummyStoryRepository × Except StoryErr Unit :=
  if (dictGet repo.characters c.id).isSome then
    (repo, .error (.valueError ("Character ID " ++ c.id ++ " already exists.")))
  else
    ({ repo with characters := repo.characters ++ [(c.id, c)] }, .ok ())

/-- `get_character`: `dict.get`, a `None` sentinel on a miss. -/
def get_character (repo : DummyStoryRepository) (id : String) : Option Character :=
  dictGet repo.characters id

/-- `get_characters`: all characters, optionally filtered by
`chapter_introduced == chapter`. -/
def get_characters (repo : DummyStoryRepository) (chapter : Option Int) :
    List Character :=
  match chapter with
  | none => repo.characters.map (·.2)
  | some ch =>
      (repo.characters.map (·.2)).filter (fun c => c.chapter_introduced == some ch)

/-- Replace the first element whose id matches (`save_element`'s update path). -/
def replaceFirstElem : List StoryElement → StoryElement → List StoryElement
  | [], _ => []
  | x :: xs, e => if x.id == e.id then e :: xs else x :: replaceFirstElem xs e

/-- `save_element`: replace the first element with the same id if one exists,
otherwise append. -/
def save_element (repo : DummyStoryRepository) (e : StoryElement) :
    DummyStoryRepository :=
  if repo.elements.any (fun x => x.id == e.id) then
    { repo with elements := replaceFirstElem repo.elements e }
  else
    { repo with elements := repo.elements ++ [e] }

end DummyStoryRepository

/-- The sort key of `get_elements`: Python `sorted(key = (e.chapter, e.time))`,
i.e. the lexicographic order on the (chapter, time) pair. -/
def elemLe (a b : StoryElement) : Prop :=
  a.chapter < b.chapter ∨ (a.chapter = b.chapter ∧ a.time ≤ b.time)

instance : DecidableRel elemLe := fun a b => by
  unfold elemLe; exact inferInstance

instance : IsTotal StoryElement elemLe where
  total a b := by
    unfold elemLe
    rcases lt_trichotomy a.chapter b.chapter with h | h | h
    · exact Or.inl (Or.inl h)
    · rcases le_total a.time b.time with ht | ht
      · exact Or.inl (Or.inr ⟨h, ht⟩)
      · exact Or.inr (Or.inr ⟨h.symm, ht⟩)
    · exact Or.inr (Or.inl h)

instance : IsTrans StoryElement elemLe where
  trans a b c hab hbc := by
    unfold elemLe at hab hbc ⊢
    rcases hab with h1 | ⟨h1, h1t⟩ <;> rcases hbc with h2 | ⟨h2, h2t⟩
    · exact Or.inl (h1.trans h2)
    · exact Or.inl (h2 ▸ h1)
    · exact Or.inl (h1 ▸ h2)
    · exact Or.inr ⟨h1.trans h2, h1t.trans h2t⟩

namespace DummyStoryRepository

/-- `get_elements`: optional chapter filter, then optional inclusive time-range
filter (bounds normalized by `ensure_tz`), then `sorted(key = (chapter, time))`
(a stable sort, modelled by `List.insertionSort` on the same key order). -/
def get_elements (repo : DummyStoryRepository) (chapter : Option Int)
    (start_time end_time : Option StoryTime) : List StoryElement :=
  let f1 :=
    match chapter with
    | none => repo.elements
    | some ch => repo.elements.filter (fun e => e.chapter == ch)
  let f2 :=
    if start_time.isSome || end_time.isSome then
      f1.filter (fun e =>
        (match start_time with
         | none => true
         | some st => decide (StoryTime.ensure_tz st ≤ e.time)) &&
        (match end_time with
         | none => true
         | some et => decide (e.time ≤ StoryTime.ensure_tz et)))
    else f1
  List.insertionSort elemLe f2

/-- `clear_chapter`: remove exactly the elements of `chapter` and the
characters with `chapter_introduced == chapter` (a `None` chapter_introduced
never equals an int, so such characters are retained). -/
def clear_chapter (repo : DummyStoryRepository) (chapter : Int) :
    DummyStoryRepository :=
  { repo with
      elements := repo.elements.filter (fun e => !(e.chapter == chapter)),
      characters :=
        repo.characters.filter (fun p => !(p.2.chapter_introduced == some chapter)) }

/-- `clear_from_chapter_onwards`: keep elements with `chapter < n` and
characters whose `chapter_introduced` is `None` or `< n`. -/
def clear_from_chapter_onwards (repo : DummyStoryRepository) (chapter : Int) :
    DummyStoryRepository :=
  { repo with
      elements := repo.elements.filter (fun e => decide (e.chapter < chapter)),
      characters :=
        repo.characters.filter (fun p =>
          match p.2.chapter_introduced with
          | none => true
          | some ci => decide (ci < chapter)) }

end DummyStoryRepository

/-- Arguments `Story.create_character` forwards to a generator's `generate`
(keyword arguments of `CharacterGenerator.generate`); `kwargs` is the free-form
`**kwargs` attribute overrides. -/
structure CharGenArgs where
  character_id : Option String
  first_name : Option String
  last_name : Option String
  pronouns : Option String
  chapter : Option Int
  kwargs : List (String × AttrVal)

/-- A character generator collaborator (`CharacterGenerator` protocol):
`generate` may raise (e.g. an invalid pronoun selector). -/
def CharGen : Type := CharGenArgs → Except StoryErr Character

/-- Python truthiness of `explicit or generated` for optional strings: an
explicitly supplied non-empty string wins, otherwise the generated default. -/
def pyOr (explicit : Option String) (generated : String) : String :=
  match explicit with
  | none => generated
  | some s => if s = "" then generated else s

/-- The random draws `FakerCharacterGenerator.generate` consumes, passed in
explicitly: the fresh `uuid4()`, the `random.choice` of pronoun subject, the
Faker name/flavor outputs, the `random.random() < 0.2` hyphenation draw and the
extra surname it would prepend.  (The gendered first-name pools and the
0–2 middle-name count only shape which Faker calls produce these strings, not
the data flow, so one drawn value per field suffices.) -/
structure FakerDraws where
  fresh_id : String
  pronoun_choice : String
  gen_first : String
  gen_middle_names : List String
  gen_last : String
  hyphen_draw : Bool
  hyphen_last : String
  gen_description : String
  gen_age : Int
  gen_occupation : String

/-- Encode the generator's `chapter` argument (an int or `None`) as the
attribute value stored under `"chapter_introduced"`. -/
def AttrVal.ofOptInt : Option Int → AttrVal
  | none => .nullv
  | some n => .int n

/-- `FakerCharacterGenerator.generate` (generation/faker.py): default the id to
a fresh uuid, default the pronoun subject to the random choice, honor explicit
`first_name`/`last_name` via Python `or`, with a 20% chance prepend a generated
surname and a hyphen to the last name (explicit or not), assemble the flavor
attributes (recording `chapter` only under the `"chapter_introduced"` attribute
key), apply `**kwargs` overrides, and build the `Character` — whose
`chapter_introduced` field is left at its `None` default. -/
def FakerCharacterGenerator.generate (draws : FakerDraws) : CharGen :=
  fun args =>
    let character_id := args.character_id.getD draws.fresh_id
    let pronoun_subject := args.pronouns.getD draws.pronoun_choice
    let first := pyOr args.first_name draws.gen_first
    let middle_names := draws.gen_middle_names
    let last0 := pyOr args.last_name draws.gen_last
    let last :=
      if draws.hyphen_draw then draws.hyphen_last ++ "-" ++ last0 else last0
    let attributes :=
      dictUpdate
        [("description", .str draws.gen_description),
         ("age", .int draws.gen_age),
         ("occupation", .str draws.gen_occupation),
         ("chapter_introduced", AttrVal.ofOptInt args.chapter)]
        args.kwargs
    match Pronouns.from_subject pronoun_subject with
    | .error e => .error e
    | .ok pr =>
        .ok ⟨character_id, first, middle_names, last, some pr, none,
             attributes, []⟩

/-- `Story` (story.py): the session orchestrator over a `DummyStoryRepository`
backing store, with the nullable time/location cursor, the stage set, the
active chapter pointer and the in-memory character cache. -/
structure Story where
  metadata : StoryMetadata
  current_stage : List String
  repo : DummyStoryRepository
  current_chapter : Int
  current_time : Option StoryTime
  current_location : Option String
  faker_generator : CharGen
  llm_generator : CharGen
  character_cache : List (String × Character)

namespace Story

/-- `Story.clear_chapter` (story.py): delegates to the repository's
`clear_from_chapter_onwards`, then touches and saves the metadata. -/
def clear_chapter (s : Story) (chapter : Int) (now : StoryTime) : Story :=
  let repo := s.repo.clear_from_chapter_onwards chapter
  let md := { s.metadata with last_modified := now }
  { s with repo := repo.save_metadata md, metadata := md }

/-- `Story.__init__`: build the metadata, save it, initialise the empty stage,
cursor and character cache, then immediately `clear_chapter(chapter)` (which
clears from `chapter` onwards). -/
def init (title author : String) (faker_gen llm_gen : CharGen)
    (repo : DummyStoryRepository) (chapter : Int) (now : StoryTime) : Story :=
  let md : StoryMetadata := ⟨title, author, now, now⟩
  let s : Story :=
    { metadata := md
      current_stage := []
      repo := repo.save_metadata md
      current_chapter := chapter
      current_time := none
      current_location := none
      faker_generator := faker_gen
      llm_generator := llm_gen
      character_cache := [] }
  s.clear_chapter chapter now

/-- `Story.set_time`: unconditional cursor update (no metadata touch). -/
def set_time (s : Story) (t : StoryTime) : Story :=
  { s with current_time := some t }

/-- `Story.set_location`: set the cursor and touch/save the metadata. -/
def set_location (s : Story) (location : String) (now : StoryTime) : Story :=
  let md := { s.metadata with last_modified := now }
  { s with current_location := some location, metadata := md,
           repo := s.repo.save_metadata md }

/-- Python `set.add` on the stage (membership-idempotent insert). -/
def stageAdd (stage : List String) (id : String) : List String :=
  if id ∈ stage then stage else stage ++ [id]

/-- `Story.enter_character` on a valid identifier: add it to the stage. -/
def enter_character (s : Story) (character_id : String) : Story :=
  { s with current_stage := stageAdd s.current_stage character_id }

/-- `Story.add_element`: raise `UninitializedStoryError` without a current
time, `UninitializedLocationError` without a current location; otherwise build
the element (fresh id, cursor time/location, stage snapshot, active chapter),
persist it and touch the metadata. -/
def add_element (s : Story) (content : String) (freshId : String)
    (now : StoryTime) : Story × Except StoryErr StoryElement :=
  match s.current_time with
  | none =>
      (s, .error (.uninitializedStory
        "Cannot add element before setting initial time."))
  | some t =>
      match s.current_location with
      | none =>
          (s, .error (.uninitializedLocation
            "Cannot add element before setting a location."))
      | some loc =>
          let e : StoryElement :=
            ⟨freshId, StoryTime.ensure_tz t, loc, content, s.current_chapter,
             s.current_stage⟩
          let repo := s.repo.save_element e
          let md := { s.metadata with last_modified := now }
          ({ s with repo := repo.save_metadata md, metadata := md }, .ok e)

/-- `Story.create_character`: select the generator by `generator_type`, call
its `generate` with the explicit constraints and the active chapter, persist
the result through `save_character` (which raises on a duplicate id) and touch
the metadata.  The result is not added to the session's character cache. -/
def create_character (s : Story) (character_id : Option String)
    (first_name last_name : Option String) (pronouns : Option String)
    (generator_type : String) (now : StoryTime) :
    Story × Except StoryErr Character :=
  let gen? : Except StoryErr CharGen :=
    if generator_type = "faker" then .ok s.faker_generator
    else if generator_type = "llm" then .ok s.llm_generator
    else .error (.valueError ("Invalid generator type: " ++ generator_type))
  match gen? with
  | .error e => (s, .error e)
  | .ok gen =>
      match gen ⟨character_id, first_name, last_name, pronouns,
                 some s.current_chapter, []⟩ with
      | .error e => (s, .error e)
      | .ok c =>
          match s.repo.save_character c with
          | (repo, .error e) => ({ s with repo := repo }, .error e)
          | (repo, .ok _) =>
              let md := { s.metadata with last_modified := now }
              ({ s with repo := repo.save_metadata md, metadata := md }, .ok c)

/-- `Story.get_character`: serve a cache hit directly; on a miss query the
store, cache a hit, and raise `ValueError` when the store misses too. -/
def get_character (s : Story) (character_id : String) :
    Story × Except StoryErr Character :=
  match dictGet s.character_cache character_id with
  | some c => (s, .ok c)
  | none =>
      match s.repo.get_character character_id with
      | some c =>
          ({ s with character_cache := dictSet s.character_cache character_id c },
           .ok c)
      | none =>
          (s, .error (.valueError
            ("Character with ID " ++ character_id ++ " not found.")))

/-- `Story.add_relationship`: fetch both characters, write the shared
`Relationship` descriptor into both relationship maps, and persist both through
`save_character`.  (In Python the two map writes mutate the fetched objects in
place; the theorems about this function only concern its outcome, which the
explicit-state translation preserves.) -/
def add_relationship (s : Story) (character_id related_character_id : String)
    (relationship_type : String) (description : Option String) :
    Story × Except StoryErr Unit :=
  match s.get_character character_id with
  | (s1, .error e) => (s1, .error e)
  | (s1, .ok character) =>
      match s1.get_character related_character_id with
      | (s2, .error e) => (s2, .error e)
      | (s2, .ok related) =>
          let relationship : Relationship := ⟨relationship_type, description⟩
          let character2 :=
            { character with
                relationships :=
                  dictSet character.relationships related.id relationship }
          let related2 :=
            { related with
                relationships :=
                  dictSet related.relationships character.id relationship }
          match s2.repo.save_character character2 with
          | (repo, .error e) => ({ s2 with repo := repo }, .error e)
          | (repo, .ok _) =>
              match ({ s2 with repo := repo } : Story).repo.save_character related2 with
              | (repo2, .error e) => ({ s2 with repo := repo2 }, .error e)
              | (repo2, .ok _) => ({ s2 with repo := repo2 }, .ok ())

/-- One manuscript line for an element: `f"[{element.time}] {element.content}\n"`. -/
def renderElementLine (e : StoryElement) : String :=
  "[" ++ toString e.time ++ "] " ++ e.content ++ "\n"

/-- One step of `generate_manuscript`'s grouping loop: append the element to
its location's bucket, creating the bucket at the end on first occurrence
(Python `dict` insertion order). -/
def bucketAdd (d : List (String × List StoryElement)) (k : String)
    (e : StoryElement) : List (String × List StoryElement) :=
  match d with
  | [] => [(k, [e])]
  | (k0, l) :: rest =>
      if k0 = k then (k0, l ++ [e]) :: rest else (k0, l) :: bucketAdd rest k e

/-- The grouping loop of `generate_manuscript`: fold the chapter's elements
into a location-keyed dict of buckets. -/
def groupByLocation (l : List StoryElement) :
    List (String × List StoryElement) :=
  l.foldl (fun acc e => bucketAdd acc e.location e) []

/-- `Story.generate_manuscript`: chapter heading, then for each entry of the
location-grouped dict a `## location` heading followed by that bucket's element
lines. -/
def generate_manuscript (s : Story) : String :=
  let elements := s.repo.get_elements (some s.current_chapter) none none
  let groups := groupByLocation elements
  "# Chapter " ++ toString s.current_chapter ++ "\n\n" ++
    String.join (groups.map (fun g =>
      "## " ++ g.1 ++ "\n" ++ String.join (g.2.map renderElementLine)))

end Story

/-- The character record shape `StoryManager` (storyjupyter/story.py) caches
and stores: for the duplicate-identifier logic only the identifier and the
introduction chapter matter. -/
structure MgrCharacter where
  character_id : String
  chapter_introduced : Option Int
deriving DecidableEq, Repr

/-- The state `StoryManager.create_character` reads and writes: the backing
character store (modelled with `DummyStoryRepository.save_character`'s
uniqueness-enforcing dict semantics, the store the claim composes it with),
the `_characters` in-memory cache, the active chapter and the autosave flag. -/
structure StoryManagerState where
  characters_store : List (String × MgrCharacter)
  character_cache : List (String × MgrCharacter)
  chapter : Int
  autosave_characters : Bool
deriving DecidableEq, Repr

/-- `StoryManager.create_character` (storyjupyter/story.py): default the id to
a fresh uuid; raise if the id already exists in the backing store, then if it
exists in the in-memory cache; otherwise generate, tag the active chapter as
`chapter_introduced`, and (when saving is on) persist through the store's
duplicate-rejecting save and cache the result. -/
def StoryManager.create_character (st : StoryManagerState)
    (character_id : Option String) (freshId : String)
    (gen : String → MgrCharacter) (save_flag : Bool) :
    StoryManagerState × Except StoryErr MgrCharacter :=
  let cid := character_id.getD freshId
  match dictGet st.characters_store cid with
  | some _ =>
      (st, .error (.valueError ("Character ID " ++ cid ++
        " already exists in the database. Cannot create character.")))
  | none =>
      if (dictGet st.character_cache cid).isSome then
        (st, .error (.valueError ("Character ID " ++ cid ++
          " already exists in memory. Cannot create character.")))
      else
        let c0 := gen cid
        let c := { c0 with chapter_introduced := some st.chapter }
        let should_save := if save_flag then st.autosave_characters else false
        if should_save then
          match dictGet st.characters_store c.character_id with
          | some _ =>
              (st, .error (.valueError ("Character ID " ++ c.character_id ++
                " already exists.")))
          | none =>
              ({ st with
                  characters_store :=
                    st.characters_store ++ [(c.character_id, c)],
                  character_cache :=
                    dictSet st.character_cache c.character_id c }, .ok c)
        else (st, .ok c)

/-! ## Specification-side definitions

Formalizations of the spec's wording, to be compared with the embedded code:
the combined element filter, the contiguous-run ("scene") grouping of §4.6 and
the first-occurrence location listing used to characterize what
`generate_manuscript` actually computes. -/

/-- The spec's element-query contract: an element matches when it passes the
chapter filter, the inclusive lower time bound and the inclusive upper time
bound, each only if given. -/
def matchesFilters (chapter : Option Int) (start_time end_time : Option StoryTime)
    (e : StoryElement) : Bool :=
  (match chapter with
   | none => true
   | some ch => e.chapter == ch) &&
  ((match start_time with
    | none => true
    | some st => decide (st ≤ e.time)) &&
   (match end_time with
    | none => true
    | some et => decide (e.time ≤ et)))

/-- The scene grouping §4.6 describes: split the element sequence into maximal
contiguous runs of equal location ("a new scene begins whenever location
differs from the immediately preceding element"). -/
def contiguousRuns : List StoryElement → List (String × List StoryElement)
  | [] => []
  | e :: es =>
      match contiguousRuns es with
      | [] => [(e.location, [e])]
      | (k, run) :: rest =>
          if k = e.location then (k, e :: run) :: rest
          else (e.location, [e]) :: (k, run) :: rest

/-- The claim's manuscript: the chapter heading, then one `## location` scene
heading per contiguous location run of the timeline-ordered elements, each
followed by that run's element lines (same line format as the code, so that
only the grouping is compared). -/
def manuscriptScenesSpec (s : Story) : String :=
  let elements := s.repo.get_elements (some s.current_chapter) none none
  "# Chapter " ++ toString s.current_chapter ++ "\n\n" ++
    String.join ((contiguousRuns elements).map (fun g =>
      "## " ++ g.1 ++ "\n" ++ String.join (g.2.map Story.renderElementLine)))

/-- The distinct members of a list in order of first occurrence. -/
def firstOccs : List String → List String
  | [] => []
  | x :: xs => x :: firstOccs (xs.filter (fun y => !(y == x)))
termination_by l => l.length
decreasing_by
  simp only [List.length_cons]
  exact Nat.lt_succ_of_le (List.length_filter_le _ xs)

/-! ## Concrete fixtures for counterexamples and witnesses -/

/-- A generator collaborator that is never consulted by the fixture runs. -/
def noGen : CharGen := fun _ => Except.error (.valueError "unused")

/-- Zeroed metadata for fixture sessions. -/
def mdZero : StoryMetadata := ⟨"t", "a", 0, 0⟩

/-- The expanded "he" pronoun set. -/
def prHe : Pronouns := ⟨"he", "him", "his", "his", "himself"⟩

/-- C1 fixture: a chapter-0 element surviving a chapter-1 rewind. -/
def w1Elem : StoryElement := ⟨"e0", 0, "Loc", "kept", 0, []⟩

/-- C1 fixture: a chapter-0 character surviving a chapter-1 rewind. -/
def w1Char : Character := ⟨"w", "W", [], "", none, some 0, [], []⟩

/-- C1 fixture: the pre-existing backing store. -/
def w1Repo : DummyStoryRepository := ⟨none, [("w", w1Char)], [w1Elem]⟩

/-- C2 fixture: an element of chapter 2. -/
def c2Elem : StoryElement := ⟨"e2", 0, "Loc", "later", 2, []⟩

/-- C2 fixture: a character introduced in chapter 2. -/
def c2Char : Character := ⟨"y", "Y", [], "", none, some 2, [], []⟩

/-- C2 fixture: a session on chapter 3 whose store holds chapter-2 data. -/
def c2Story : Story :=
  { metadata := mdZero
    current_stage := []
    repo := ⟨none, [("y", c2Char)], [c2Elem]⟩
    current_chapter := 3
    current_time := none
    current_location := none
    faker_generator := noGen
    llm_generator := noGen
    character_cache := [] }

/-- C4 fixture: the already-stored character. -/
def c4Char : MgrCharacter := ⟨"x", none⟩

/-- C4 fixture: manager state whose store already holds id `"x"`. -/
def c4State : StoryManagerState := ⟨[("x", c4Char)], [], 1, true⟩

/-- C4 fixture: a generator echoing the requested id. -/
def c4Gen : String → MgrCharacter := fun cid => ⟨cid, none⟩

/-- C5 fixture: character `a`, present in the store. -/
def c5A : Character := ⟨"a", "Alice", [], "", none, none, [], []⟩

/-- C5 fixture: character `b`, present in the store. -/
def c5B : Character := ⟨"b", "Bob", [], "", none, none, [], []⟩

/-- C5 fixture: a session whose store holds both characters. -/
def c5Story : Story :=
  { metadata := mdZero
    current_stage := []
    repo := ⟨none, [("a", c5A), ("b", c5B)], []⟩
    current_chapter := 1
    current_time := none
    current_location := none
    faker_generator := noGen
    llm_generator := noGen
    character_cache := [] }

/-- C6 fixture: a session with a current time but no location ever set. -/
def c6Story : Story :=
  { metadata := mdZero
    current_stage := ["a"]
    repo := ⟨none, [], [w1Elem]⟩
    current_chapter := 1
    current_time := some 5
    current_location := none
    faker_generator := noGen
    llm_generator := noGen
    character_cache := [] }

/-- C7 counterexample fixture: faker draws whose 20% hyphenation draw fires. -/
def c7DrawsHyph : FakerDraws :=
  ⟨"u1", "they", "GenFirst", [], "GenLast", true, "Smith", "desc", 30, "job"⟩

/-- C7 counterexample fixture: a fresh session backed by those draws. -/
def c7Story : Story :=
  Story.init "t" "a" (FakerCharacterGenerator.generate c7DrawsHyph) noGen
    ⟨none, [], []⟩ 1 0

/-- C7 counterexample fixture: the session and outcome of creating a character
with the explicit constraints `first="John"`, `last="Doe"`, `pronouns="he"`. -/
def c7Create : Story × Except StoryErr Character :=
  c7Story.create_character (some "id1") (some "John") (some "Doe") (some "he")
    "faker" 0

/-- C7 witness fixture: faker draws whose hyphenation draw does not fire. -/
def c7DrawsW : FakerDraws :=
  ⟨"u2", "they", "GenFirst", [], "GenLast", false, "Smith", "desc", 30, "job"⟩

/-- C7 witness fixture: a fresh session backed by those draws. -/
def c7StoryW : Story :=
  Story.init "t" "a" (FakerCharacterGenerator.generate c7DrawsW) noGen
    ⟨none, [], []⟩ 1 0

/-- C8 fixture: first Cafe element. -/
def c8E1 : StoryElement := ⟨"1", 10, "Cafe", "one", 1, []⟩

/-- C8 fixture: the Street element between the two Cafe elements. -/
def c8E2 : StoryElement := ⟨"2", 20, "Street", "two", 1, []⟩

/-- C8 fixture: second, non-contiguous Cafe element. -/
def c8E3 : StoryElement := ⟨"3", 30, "Cafe", "three", 1, []⟩

/-- C8 fixture: a session whose chapter-1 timeline is Cafe, Street, Cafe. -/
def c8Story : Story :=
  { metadata := mdZero
    current_stage := []
    repo := ⟨none, [], [c8E1, c8E2, c8E3]⟩
    current_chapter := 1
    current_time := none
    current_location := none
    faker_generator := noGen
    llm_generator := noGen
    character_cache := [] }

/-- C9 fixture: a character introduced in chapter 2, both stored and cached. -/
def c9Char : Character := ⟨"x", "X", [], "", none, some 2, [], []⟩

/-- C9 fixture: a session that has that character in store and cache. -/
def c9Story : Story :=
  { metadata := mdZero
    current_stage := []
    repo := ⟨none, [("x", c9Char)], []⟩
    current_chapter := 2
    current_time := none
    current_location := none
    faker_generator := noGen
    llm_generator := noGen
    character_cache := [("x", c9Char)] }

/-- C10 fixture: arbitrary concrete faker draws. -/
def c10Draws : FakerDraws :=
  ⟨"u3", "they", "F", ["M"], "L", true, "H", "d", 40, "o"⟩

/-- C10 fixture: generator arguments carrying chapter 4 and no overrides. -/
def c10Args : CharGenArgs := ⟨some "z", none, none, none, some 4, []⟩

/-- C10 fixture: the character those draws and arguments produce. -/
def c10Char : Character :=
  ⟨"z", "F", ["M"], "H-L",
   some ⟨"they", "them", "their", "theirs", "themselves"⟩, none,
   [("description", .str "d"), ("age", .int 40), ("occupation", .str "o"),
    ("chapter_introduced", .int 4)], []⟩

/-- C10 fixture: a store holding that generator-produced character. -/
def c10Repo : DummyStoryRepository := ⟨none, [("z", c10Char)], []⟩

/-! ## Helper lemmas about the dict model -/

theorem dictGet_append_of_none {α : Type} (l1 l2 : List (String × α)) (k : String)
    (h : dictGet l1 k = none) : dictGet (l1 ++ l2) k = dictGet l2 k := by
  induction l1 with
  | nil => rfl
  | cons p rest ih =>
      obtain ⟨k0, v0⟩ := p
      simp only [dictGet, List.cons_append] at h ⊢
      by_cases hk : k0 = k
      · rw [if_pos hk] at h; exact absurd h (by simp)
      · rw [if_neg hk] at h ⊢
        exact ih h

theorem dictGet_dictSet_ne {α : Type} (d : List (String × α)) (k0 : String)
    (v : α) (k : String) (h : k0 ≠ k) :
    dictGet (dictSet d k0 v) k = dictGet d k := by
  induction d with
  | nil => simp [dictSet, dictGet, h]
  | cons p rest ih =>
      obtain ⟨k1, v1⟩ := p
      by_cases hk : k1 = k0
      · simp [dictSet, dictGet, hk, h]
      · simp only [dictSet, hk, ite_false]
        by_cases hk' : k1 = k
        · simp [dictGet, hk']
        · simp [dictGet, hk', ih]

theorem dictGet_dictUpdate_of_none {α : Type} (d kvs : List (String × α))
    (k : String) (h : dictGet kvs k = none) :
    dictGet (dictUpdate d kvs) k = dictGet d k := by
  induction kvs generalizing d with
  | nil => rfl
  | cons p rest ih =>
      obtain ⟨k0, v0⟩ := p
      by_cases hk : k0 = k
      · simp [dictGet, hk] at h
      · simp only [dictGet, hk, ite_false, if_false] at h
        simp only [dictUpdate, List.foldl_cons]
        have := ih (dictSet d k0 v0) h
        simp only [dictUpdate] at this
        rw [this, dictGet_dictSet_ne _ _ _ _ hk]

theorem isSome_dictGet_append {α : Type} (l1 l2 : List (String × α))
    (k : String) :
    (dictGet (l1 ++ l2) k).isSome =
      ((dictGet l1 k).isSome || (dictGet l2 k).isSome) := by
  induction l1 with
  | nil => simp [dictGet]
  | cons p rest ih =>
      obtain ⟨k0, v0⟩ := p
      by_cases hk : k0 = k <;> simp [dictGet, hk, ih]

theorem dictGet_eq_none_iff {α : Type} (d : List (String × α)) (k : String) :
    dictGet d k = none ↔ k ∉ d.map Prod.fst := by
  induction d with
  | nil => simp [dictGet]
  | cons p rest ih =>
      obtain ⟨k0, v0⟩ := p
      simp only [dictGet, List.map_cons, List.mem_cons]
      by_cases hk : k0 = k
      · subst hk; simp
      · simp only [hk, ite_false, ih]
        constructor
        · intro hnot hor
          rcases hor with h1 | h2
          · exact hk h1.symm
          · exact hnot h2
        · intro hnot h2
          exact hnot (Or.inr h2)

/-! ## C1 — constructor rewind clears chapter `c` onwards -/

/-- C1: for every session constructed with target chapter `c`, immediately
after construction the backing store contains no element with chapter `>= c`
and no character with `chapter_introduced >= c` (so everything of chapter `c`
onwards that was present before construction is absent). -/
theorem C1_constructor_clears_onward (title author : String) (fg lg : CharGen)
    (repo : DummyStoryRepository) (c : Int) (now : StoryTime) :
    (∀ e : StoryElement,
        e ∈ (Story.init title author fg lg repo c now).repo.elements →
        e.chapter < c) ∧
    (∀ p : String × Character,
        p ∈ (Story.init title author fg lg repo c now).repo.characters →
        ∀ ci : Int, p.2.chapter_introduced = some ci → ci < c) := by
  constructor
  · intro e he
    simp only [Story.init, Story.clear_chapter,
      DummyStoryRepository.clear_from_chapter_onwards,
      DummyStoryRepository.save_metadata, List.mem_filter,
      decide_eq_true_eq] at he
    exact he.2
  · intro p hp ci hci
    simp only [Story.init, Story.clear_chapter,
      DummyStoryRepository.clear_from_chapter_onwards,
      DummyStoryRepository.save_metadata, List.mem_filter] at hp
    have h2 := hp.2
    rw [hci] at h2
    simpa using h2

/-- C1 witness: a chapter-0 element and character survive the chapter-1
rewind, and the theorem yields their chapter bounds. -/
theorem C1_witness : w1Elem.chapter < 1 ∧ (0 : Int) < 1 :=
  ⟨(C1_constructor_clears_onward "t" "a" noGen noGen w1Repo 1 0).1 w1Elem
      (by decide),
   (C1_constructor_clears_onward "t" "a" noGen noGen w1Repo 1 0).2
      ("w", w1Char) (by decide) 0 rfl⟩

/-! ## C2 — what the session's chapter-clear entry point actually does -/

/-- C2 counterexample: the claim says `start_chapter(n)` (the session's
mid-session chapter clear, `Story.clear_chapter`) deletes exactly chapter `n`
and switches the pointer to `n`.  At this concrete input, clearing chapter 1
deletes the chapter-2 element and the chapter-2 character that were present,
and the active chapter pointer stays 3. -/
theorem C2_counterexample :
    c2Elem ∈ c2Story.repo.elements ∧ c2Elem.chapter ≠ 1 ∧
    c2Elem ∉ (c2Story.clear_chapter 1 0).repo.elements ∧
    ("y", c2Char) ∈ c2Story.repo.characters ∧
    c2Char.chapter_introduced ≠ some 1 ∧
    ("y", c2Char) ∉ (c2Story.clear_chapter 1 0).repo.characters ∧
    (c2Story.clear_chapter 1 0).current_chapter ≠ 1 := by
  decide

/-- C2 amended: `Story.clear_chapter n` clears chapter `n` *onwards* — an
element survives iff its chapter is `< n`, a character survives iff its
`chapter_introduced` is `None` or `< n` — and the active chapter pointer is
left unchanged. -/
theorem C2_clear_chapter_semantics (s : Story) (n : Int) (now : StoryTime) :
    (∀ e : StoryElement,
        e ∈ (s.clear_chapter n now).repo.elements ↔
        e ∈ s.repo.elements ∧ e.chapter < n) ∧
    (∀ p : String × Character,
        p ∈ (s.clear_chapter n now).repo.characters ↔
        p ∈ s.repo.characters ∧
          ∀ ci : Int, p.2.chapter_introduced = some ci → ci < n) ∧
    (s.clear_chapter n now).current_chapter = s.current_chapter := by
  refine ⟨fun e => ?_, fun p => ?_, rfl⟩
  · simp [Story.clear_chapter, DummyStoryRepository.clear_from_chapter_onwards,
      DummyStoryRepository.save_metadata, List.mem_filter]
  · simp only [Story.clear_chapter,
      DummyStoryRepository.clear_from_chapter_onwards,
      DummyStoryRepository.save_metadata, List.mem_filter]
    cases h : p.2.chapter_introduced <;> simp [h]

/-- C2 amended witness: the chapter-2 element is retained by a clear at
chapter 5. -/
theorem C2_amended_witness :
    c2Elem ∈ (c2Story.clear_chapter 5 0).repo.elements :=
  ((C2_clear_chapter_semantics c2Story 5 0).1 c2Elem).mpr
    ⟨by decide, by decide⟩

/-! ## C3 — the element query returns exactly the matching elements, sorted -/

theorem filter_then_filter {α : Type} (p q : α → Bool) (l : List α) :
    (l.filter q).filter p = l.filter (fun a => q a && p a) := by
  induction l with
  | nil => rfl
  | cons x xs ih =>
      by_cases hq : q x = true
      · by_cases hp : p x = true <;> simp [List.filter_cons, hq, hp, ih]
      · simp [List.filter_cons, hq, Bool.eq_false_iff.mpr hq, ih]

/-- C3: for every store state and every combination of chapter and time-range
filters, `get_elements` returns a permutation of exactly the elements matching
all given filters (time bounds inclusive), and the result is sorted ascending
by the lexicographic (chapter, time) key. -/
theorem C3_get_elements_exact_and_sorted (repo : DummyStoryRepository)
    (chapter : Option Int) (start_time end_time : Option StoryTime) :
    List.Perm (repo.get_elements chapter start_time end_time)
      (repo.elements.filter
        (fun e => matchesFilters chapter start_time end_time e)) ∧
    List.Sorted elemLe (repo.get_elements chapter start_time end_time) := by
  constructor
  · simp only [DummyStoryRepository.get_elements]
    refine List.Perm.trans (List.perm_insertionSort elemLe _) ?_
    rcases chapter with _ | ch <;> rcases start_time with _ | st <;>
      rcases end_time with _ | et <;>
        simp [matchesFilters, StoryTime.ensure_tz] <;>
          refine List.Perm.of_eq (List.filter_congr ?_) <;>
            intro e _ <;> cases h1 : (e.chapter == ch) <;> simp [h1]
  · simp only [DummyStoryRepository.get_elements]
    exact List.sorted_insertionSort elemLe _

/-- C4: if the explicit id already exists in the backing store or in the
in-memory cache, `create_character` raises the duplicate-identifier
(`ValueError`) error and leaves the whole state — in particular the stored and
cached record for that id — unchanged. -/
theorem C4_duplicate_id_rejected (st : StoryManagerState) (x freshId : String)
    (gen : String → MgrCharacter) (save_flag : Bool)
    (h : (dictGet st.characters_store x).isSome = true ∨
         (dictGet st.character_cache x).isSome = true) :
    (StoryManager.create_character st (some x) freshId gen save_flag).1 = st ∧
    ∃ msg, (StoryManager.create_character st (some x) freshId gen save_flag).2 =
      .error (.valueError msg) := by
  unfold StoryManager.create_character
  simp only [Option.getD_some]
  cases hs : dictGet st.characters_store x with
  | some c =>
      refine ⟨rfl, "Character ID " ++ x ++
        " already exists in the database. Cannot create character.", rfl⟩
  | none =>
      have hc : (dictGet st.character_cache x).isSome = true := by
        rcases h with h | h
        · rw [hs] at h; simp at h
        · exact h
      simp only [hc, if_true]
      exact ⟨trivial, _, rfl⟩

/-- C4 witness: creating `"x"` when the store already holds `"x"` is rejected
with the state unchanged. -/
theorem C4_witness :
    (StoryManager.create_character c4State (some "x") "f" c4Gen true).1 =
      c4State ∧
    ∃ msg, (StoryManager.create_character c4State (some "x") "f" c4Gen
      true).2 = .error (.valueError msg) :=
  C4_duplicate_id_rejected c4State "x" "f" c4Gen true (Or.inl (by decide))

/-! ## C5 — relationship persistence is impossible against the real store -/

/-- C5: with both characters present in the backing store,
`add_relationship` never succeeds — persisting the updated records goes
through `save_character`, which raises the duplicate-identifier `ValueError`
because the characters already exist.  Evaluation at the failing input. -/
theorem C5_add_relationship_raises_duplicate :
    (c5Story.add_relationship "a" "b" "sibling" none).2 =
      .error (.valueError "Character ID a already exists.") := by
  rfl

/-! ## C6 — missing-location guard on add_element -/

/-- C6: with a current time set but no location ever set, `add_element`
raises `UninitializedLocationError` and the store's element collection is
unchanged. -/
theorem C6_missing_location_guard (s : Story) (content freshId : String)
    (now t : StoryTime) (ht : s.current_time = some t)
    (hl : s.current_location = none) :
    (s.add_element content freshId now).1.repo.elements = s.repo.elements ∧
    (s.add_element content freshId now).2 =
      .error (.uninitializedLocation
        "Cannot add element before setting a location.") := by
  unfold Story.add_element
  rw [ht, hl]
  exact ⟨rfl, rfl⟩

/-- C6 witness: the guard fires on the concrete session with time 5 and no
location. -/
theorem C6_witness :
    (c6Story.add_element "x" "e9" 0).1.repo.elements =
      c6Story.repo.elements ∧
    (c6Story.add_element "x" "e9" 0).2 =
      .error (.uninitializedLocation
        "Cannot add element before setting a location.") :=
  C6_missing_location_guard c6Story "x" "e9" 0 5 rfl rfl

/-! ## C7 — explicit constraints versus generator round-trip -/

/-- C7 counterexample: the claim says creating with explicit
`first="John", last="Doe", pronouns="he"` and fetching by id yields exactly the
supplied last name.  With faker draws whose 20% hyphenation draw fires, the
fetched last name is `"Smith-Doe"`, not `"Doe"` — the generator prepends a
generated surname to the explicitly supplied one. -/
theorem C7_counterexample :
    ((c7Create.1.get_character "id1").2.toOption.map Character.last_name) =
      some "Smith-Doe" ∧ "Smith-Doe" ≠ "Doe" :=
  ⟨rfl, by decide⟩

/-- C7 amended: creating a character through the faker generator with explicit
non-empty first/last names and a valid pronoun selector, on a fresh id, then
fetching it by id, yields the supplied first name and the pronoun set expanded
from the selector, with age and occupation attributes present; the last name
is the supplied one exactly when the 20% hyphenation draw does not fire, and
otherwise is a generated surname, a hyphen, and the supplied last name. -/
theorem C7_roundtrip (s : Story) (draws : FakerDraws) (cid fn ln sub : String)
    (now : StoryTime) (pr : Pronouns)
    (hgen : s.faker_generator = FakerCharacterGenerator.generate draws)
    (hfn : fn ≠ "") (hln : ln ≠ "")
    (hpr : Pronouns.from_subject sub = .ok pr)
    (hstore : dictGet s.repo.characters cid = none)
    (hcache : dictGet s.character_cache cid = none) :
    ∃ c : Character,
      (s.create_character (some cid) (some fn) (some ln) (some sub) "faker"
        now).2 = .ok c ∧
      ((s.create_character (some cid) (some fn) (some ln) (some sub) "faker"
        now).1.get_character cid).2 = .ok c ∧
      c.first_name = fn ∧
      c.last_name =
        (if draws.hyphen_draw then draws.hyphen_last ++ "-" ++ ln else ln) ∧
      c.pronouns = some pr ∧
      (dictGet c.attributes "age").isSome = true ∧
      (dictGet c.attributes "occupation").isSome = true := by
  have hrun : FakerCharacterGenerator.generate draws
      ⟨some cid, some fn, some ln, some sub, some s.current_chapter, []⟩ =
      .ok ⟨cid, fn, draws.gen_middle_names,
        (if draws.hyphen_draw then draws.hyphen_last ++ "-" ++ ln else ln),
        some pr, none,
        [("description", .str draws.gen_description),
         ("age", .int draws.gen_age),
         ("occupation", .str draws.gen_occupation),
         ("chapter_introduced", AttrVal.ofOptInt (some s.current_chapter))],
        []⟩ := by
    simp only [FakerCharacterGenerator.generate, Option.getD_some]
    rw [hpr]
    simp [pyOr, hfn, hln, dictUpdate]
  refine ⟨⟨cid, fn, draws.gen_middle_names,
      (if draws.hyphen_draw then draws.hyphen_last ++ "-" ++ ln else ln),
      some pr, none,
      [("description", .str draws.gen_description),
       ("age", .int draws.gen_age),
       ("occupation", .str draws.gen_occupation),
       ("chapter_introduced", AttrVal.ofOptInt (some s.current_chapter))],
      []⟩, ?_, ?_, rfl, rfl, rfl, ?_, ?_⟩
  · simp only [Story.create_character, hgen, if_true]
    rw [hrun]
    simp [DummyStoryRepository.save_character, hstore]
  · simp only [Story.create_character, hgen, if_true]
    rw [hrun]
    simp only [DummyStoryRepository.save_character]
    simp only [hstore, Option.isSome_none, Bool.false_eq_true, if_false]
    simp only [Story.get_character, DummyStoryRepository.get_character,
      DummyStoryRepository.save_metadata]
    rw [hcache]
    rw [dictGet_append_of_none _ _ _ hstore]
    simp [dictGet]
  · simp [dictGet]
  · simp [dictGet]

/-- C7 amended witness: the round trip at the concrete fresh session with the
non-hyphenating draws and constraints `John`/`Doe`/`he`. -/
theorem C7_roundtrip_witness :
    ∃ c : Character,
      (c7StoryW.create_character (some "id1") (some "John") (some "Doe")
        (some "he") "faker" 0).2 = .ok c ∧
      ((c7StoryW.create_character (some "id1") (some "John") (some "Doe")
        (some "he") "faker" 0).1.get_character "id1").2 = .ok c ∧
      c.first_name = "John" ∧
      c.last_name =
        (if c7DrawsW.hyphen_draw then c7DrawsW.hyphen_last ++ "-" ++ "Doe"
         else "Doe") ∧
      c.pronouns = some prHe ∧
      (dictGet c.attributes "age").isSome = true ∧
      (dictGet c.attributes "occupation").isSome = true :=
  C7_roundtrip c7StoryW c7DrawsW "id1" "John" "Doe" "he" 0 prHe rfl
    (by decide) (by decide) rfl rfl rfl

/-! ## C8 — manuscript scene grouping -/

theorem mem_of_mem_firstOccs : ∀ (n : Nat) (l : List String), l.length ≤ n →
    ∀ k, k ∈ firstOccs l → k ∈ l := by
  intro n
  induction n with
  | zero =>
      intro l hl k hk
      cases l with
      | nil => simp [firstOccs] at hk
      | cons x xs => simp at hl
  | succ n ih =>
      intro l hl k hk
      cases l with
      | nil => simp [firstOccs] at hk
      | cons x xs =>
          rw [firstOccs] at hk
          rcases List.mem_cons.mp hk with rfl | hk'
          · exact List.mem_cons_self _ _
          · have hlen : (xs.filter (fun y => !(y == x))).length ≤ n :=
              le_trans (List.length_filter_le _ xs) (Nat.le_of_succ_le_succ hl)
            exact List.mem_cons_of_mem x
              (List.mem_of_mem_filter (ih _ hlen k hk'))

theorem mem_firstOccs_sub (l : List String) (k : String)
    (h : k ∈ firstOccs l) : k ∈ l :=
  mem_of_mem_firstOccs l.length l le_rfl k h

theorem bucketAdd_of_none (acc : List (String × List StoryElement))
    (k : String) (e : StoryElement) (h : dictGet acc k = none) :
    Story.bucketAdd acc k e = acc ++ [(k, [e])] := by
  induction acc with
  | nil => rfl
  | cons p rest ih =>
      obtain ⟨k0, l0⟩ := p
      simp only [dictGet] at h
      by_cases hk : k0 = k
      · rw [if_pos hk] at h; exact absurd h (by simp)
      · rw [if_neg hk] at h
        simp only [Story.bucketAdd, hk, ite_false, List.cons_append]
        rw [ih h]

theorem keys_bucketAdd_of_isSome (acc : List (String × List StoryElement))
    (k : String) (e : StoryElement) (h : (dictGet acc k).isSome = true) :
    (Story.bucketAdd acc k e).map Prod.fst = acc.map Prod.fst := by
  induction acc with
  | nil => simp [dictGet] at h
  | cons p rest ih =>
      obtain ⟨k0, l0⟩ := p
      by_cases hk : k0 = k
      · simp [Story.bucketAdd, hk]
      · simp only [dictGet, hk, ite_false] at h
        simp [Story.bucketAdd, hk, ih h]

theorem isSome_dictGet_bucketAdd (acc : List (String × List StoryElement))
    (k : String) (e : StoryElement) (k' : String) :
    (dictGet (Story.bucketAdd acc k e) k').isSome =
      ((dictGet acc k').isSome || decide (k' = k)) := by
  induction acc with
  | nil =>
      by_cases hk : k = k'
      · subst hk; simp [Story.bucketAdd, dictGet]
      · simp [Story.bucketAdd, dictGet, hk, Ne.symm hk]
  | cons p rest ih =>
      obtain ⟨k0, l0⟩ := p
      by_cases hk0 : k0 = k
      · subst hk0
        by_cases hk' : k0 = k'
        · subst hk'; simp [Story.bucketAdd, dictGet]
        · simp [Story.bucketAdd, dictGet, hk', Ne.symm hk']
      · by_cases hk' : k0 = k'
        · subst hk'
          simp [Story.bucketAdd, dictGet, hk0]
        · simp [Story.bucketAdd, dictGet, hk0, hk', ih]

theorem map_bucketAdd_of_isSome (es : List StoryElement) (e : StoryElement)
    (acc : List (String × List StoryElement))
    (hnd : (acc.map Prod.fst).Nodup)
    (hk : (dictGet acc e.location).isSome = true) :
    (Story.bucketAdd acc e.location e).map
        (fun p => (p.1, p.2 ++ es.filter (fun x => x.location == p.1))) =
      acc.map
        (fun p => (p.1, p.2 ++ (e :: es).filter (fun x => x.location == p.1))) := by
  induction acc with
  | nil => simp [dictGet] at hk
  | cons p rest ih =>
      obtain ⟨k0, l0⟩ := p
      by_cases h0 : k0 = e.location
      · subst h0
        have hb : Story.bucketAdd ((e.location, l0) :: rest) e.location e =
            (e.location, l0 ++ [e]) :: rest := by
          simp [Story.bucketAdd]
        rw [hb]
        simp only [List.map_cons]
        have htail : rest.map
            (fun p => (p.1, p.2 ++ es.filter (fun x => x.location == p.1))) =
            rest.map
              (fun p => (p.1, p.2 ++
                (e :: es).filter (fun x => x.location == p.1))) := by
          apply List.map_congr_left
          intro q hq
          have hne : e.location ≠ q.1 := by
            intro hqe
            have hmm : q.1 ∈ rest.map Prod.fst :=
              List.mem_map_of_mem Prod.fst hq
            exact (List.nodup_cons.mp hnd).1 (hqe ▸ hmm)
          simp [List.filter_cons, hne]
        rw [htail]
        simp [List.filter_cons]
      · have hne : e.location ≠ k0 := fun hh => h0 hh.symm
        have hb : Story.bucketAdd ((k0, l0) :: rest) e.location e =
            (k0, l0) :: Story.bucketAdd rest e.location e := by
          simp [Story.bucketAdd, h0]
        rw [hb]
        simp only [List.map_cons]
        have hk' : (dictGet rest e.location).isSome = true := by
          simpa [dictGet, h0] using hk
        rw [ih (List.nodup_cons.mp hnd).2 hk']
        simp [List.filter_cons, hne]

theorem groupLoop_eq : ∀ (l : List StoryElement)
    (acc : List (String × List StoryElement)),
    (acc.map Prod.fst).Nodup →
    l.foldl (fun a e => Story.bucketAdd a e.location e) acc =
      acc.map (fun p => (p.1, p.2 ++ l.filter (fun x => x.location == p.1))) ++
      (firstOccs ((l.map (fun e => e.location)).filter
          (fun k => !(dictGet acc k).isSome))).map
        (fun k => (k, l.filter (fun x => x.location == k))) := by
  intro l
  induction l with
  | nil =>
      intro acc _
      simp [firstOccs]
  | cons e es ih =>
      intro acc hnd
      simp only [List.foldl_cons]
      by_cases hk : (dictGet acc e.location).isSome = true
      · have hnd' : ((Story.bucketAdd acc e.location e).map Prod.fst).Nodup := by
          rw [keys_bucketAdd_of_isSome acc e.location e hk]; exact hnd
        rw [ih (Story.bucketAdd acc e.location e) hnd']
        rw [map_bucketAdd_of_isSome es e acc hnd hk]
        congr 1
        have harg : (es.map (fun x => x.location)).filter
            (fun k => !(dictGet (Story.bucketAdd acc e.location e) k).isSome) =
            ((e :: es).map (fun x => x.location)).filter
              (fun k => !(dictGet acc k).isSome) := by
          rw [List.map_cons, List.filter_cons]
          rw [hk]
          simp only [Bool.not_true, if_false, ite_false]
          apply List.filter_congr
          intro k _
          rw [isSome_dictGet_bucketAdd]
          by_cases hke : k = e.location
          · subst hke; simp [hk]
          · simp [hke]
        rw [harg]
        apply List.map_congr_left
        intro k hkmem
        have hk2 := mem_firstOccs_sub _ _ hkmem
        have hkp := (List.mem_filter.mp hk2).2
        have hne : e.location ≠ k := by
          intro hkeq
          rw [← hkeq, hk] at hkp
          simp at hkp
        simp [List.filter_cons, hne]
      · have hnone : dictGet acc e.location = none := by
          cases hdg : dictGet acc e.location with
          | none => rfl
          | some v => rw [hdg] at hk; simp at hk
        have hmemk : e.location ∉ acc.map Prod.fst :=
          (dictGet_eq_none_iff acc e.location).mp hnone
        have hbk : Story.bucketAdd acc e.location e = acc ++ [(e.location, [e])] :=
          bucketAdd_of_none acc e.location e hnone
        have hkeys : ((acc ++ [(e.location, [e])]).map Prod.fst).Nodup := by
          simp only [List.map_append, List.map_cons, List.map_nil]
          rw [List.nodup_append]
          refine ⟨hnd, List.nodup_singleton _, ?_⟩
          intro a ha hb
          simp only [List.mem_singleton] at hb
          exact hmemk (hb ▸ ha)
        rw [hbk, ih (acc ++ [(e.location, [e])]) hkeys]
        rw [List.map_append]
        have hmap1 : acc.map
            (fun p => (p.1, p.2 ++ es.filter (fun x => x.location == p.1))) =
            acc.map
              (fun p => (p.1, p.2 ++ (e :: es).filter (fun x => x.location == p.1))) := by
          apply List.map_congr_left
          intro q hq
          have hne : e.location ≠ q.1 := by
            intro hqe
            have hmm : q.1 ∈ acc.map Prod.fst :=
              List.mem_map_of_mem Prod.fst hq
            exact hmemk (hqe ▸ hmm)
          simp [List.filter_cons, hne]
        rw [hmap1]
        have hhead : List.map
            (fun p => (p.1, p.2 ++ es.filter (fun x => x.location == p.1)))
            [(e.location, [e])] =
            [(e.location, (e :: es).filter (fun x => x.location == e.location))] := by
          simp [List.filter_cons]
        rw [hhead]
        have hrhs : ((e :: es).map (fun x => x.location)).filter
            (fun k => !(dictGet acc k).isSome) =
            e.location :: (es.map (fun x => x.location)).filter
              (fun k => !(dictGet acc k).isSome) := by
          rw [List.map_cons, List.filter_cons]
          rw [hnone]
          simp
        rw [hrhs]
        rw [firstOccs]
        have harg2 : ((es.map (fun x => x.location)).filter
            (fun k => !(dictGet (acc ++ [(e.location, [e])]) k).isSome)) =
            (((es.map (fun x => x.location)).filter
              (fun k => !(dictGet acc k).isSome)).filter
                (fun y => !(y == e.location))) := by
          rw [filter_then_filter]
          apply List.filter_congr
          intro k _
          rw [isSome_dictGet_append]
          by_cases hke : k = e.location
          · subst hke; simp [dictGet]
          · simp [dictGet, hke, Ne.symm hke]
        rw [harg2]
        rw [List.map_cons]
        have hmap2 : List.map
            (fun k => (k, es.filter (fun x => x.location == k)))
            (firstOccs (((es.map (fun x => x.location)).filter
              (fun k => !(dictGet acc k).isSome)).filter
                (fun y => !(y == e.location)))) =
            List.map
              (fun k => (k, (e :: es).filter (fun x => x.location == k)))
              (firstOccs (((es.map (fun x => x.location)).filter
                (fun k => !(dictGet acc k).isSome)).filter
                  (fun y => !(y == e.location)))) := by
          apply List.map_congr_left
          intro k hkmem
          have hk2 := mem_firstOccs_sub _ _ hkmem
          have hkp := (List.mem_filter.mp hk2).2
          have hne : e.location ≠ k := by
            intro hkeq
            rw [← hkeq] at hkp
            simp at hkp
          simp [List.filter_cons, hne]
        rw [hmap2]
        rw [List.append_assoc]
        rfl

theorem groupByLocation_eq (l : List StoryElement) :
    Story.groupByLocation l =
      (firstOccs (l.map (fun e => e.location))).map
        (fun k => (k, l.filter (fun x => x.location == k))) := by
  have h := groupLoop_eq l [] (by simp)
  simpa [Story.groupByLocation, dictGet] using h

/-- C8 counterexample: the claim says a new scene heading is emitted exactly at
each element whose location differs from the immediately preceding one (the
contiguous-run grouping of §4.6), so the timeline Cafe, Street, Cafe should
render three scene headings.  The code's manuscript differs: it groups all
same-location elements globally under one heading. -/
theorem C8_counterexample :
    c8Story.generate_manuscript ≠ manuscriptScenesSpec c8Story := by
  decide

/-- C8 amended: `generate_manuscript` renders the chapter heading and then one
`## location` heading per *distinct* location of the chapter's
timeline-ordered elements, in order of first appearance, each followed by the
lines of *all* that location's elements (in timeline order) — non-contiguously
recurring locations are merged under a single heading rather than starting new
scenes. -/
theorem C8_global_location_grouping (s : Story) :
    s.generate_manuscript =
      "# Chapter " ++ toString s.current_chapter ++ "\n\n" ++
      String.join
        ((firstOccs ((s.repo.get_elements (some s.current_chapter) none
            none).map (fun e => e.location))).map
          (fun loc => "## " ++ loc ++ "\n" ++
            String.join (((s.repo.get_elements (some s.current_chapter) none
              none).filter (fun e => e.location == loc)).map
                Story.renderElementLine))) := by
  simp only [Story.generate_manuscript]
  rw [groupByLocation_eq, List.map_map]
  rfl

/-! ## C9 — chapter clears do not invalidate the character cache -/

/-- C9 counterexample: the claim says every character deleted from the store
by a chapter-clear is also removed from the session cache.  At this concrete
input, after `clear_chapter 2` the store no longer has character `"x"`, yet
`get_character "x"` still serves the deleted record from the cache. -/
theorem C9_counterexample :
    (c9Story.clear_chapter 2 0).repo.get_character "x" = none ∧
    ((c9Story.clear_chapter 2 0).get_character "x").2 = .ok c9Char :=
  ⟨rfl, rfl⟩

/-- C9 amended: chapter-clear operations leave the in-memory character cache
untouched, so any cached record — including one whose store copy the clear
just deleted — is still served by a subsequent `get_character`. -/
theorem C9_stale_cache (s : Story) (n : Int) (now : StoryTime) (x : String)
    (c : Character) (h : dictGet s.character_cache x = some c) :
    ((s.clear_chapter n now).get_character x).2 = .ok c ∧
    (s.clear_chapter n now).character_cache = s.character_cache := by
  refine ⟨?_, rfl⟩
  unfold Story.get_character
  have hc : (s.clear_chapter n now).character_cache = s.character_cache := rfl
  rw [hc, h]

/-- C9 amended witness: the concrete cached chapter-2 character is still
served after `clear_chapter 2`. -/
theorem C9_stale_cache_witness :
    ((c9Story.clear_chapter 2 0).get_character "x").2 = .ok c9Char ∧
    (c9Story.clear_chapter 2 0).character_cache = c9Story.character_cache :=
  C9_stale_cache c9Story 2 0 "x" c9Char rfl

/-! ## C10 — faker characters are invisible to chapter rewrites -/

/-- C10: every character the faker generator produces has
`chapter_introduced = None` (the chapter is recorded only under the
`"chapter_introduced"` key of the free-form attribute map, absent an explicit
override), and for every chapter `n` both `clear_chapter n` and
`clear_from_chapter_onwards n` retain every stored character whose
`chapter_introduced` is `None` — so faker-generated characters are never
deleted by any chapter rewrite. -/
theorem C10_faker_chars_immune (draws : FakerDraws) (args : CharGenArgs)
    (c : Character)
    (hgen : FakerCharacterGenerator.generate draws args = .ok c)
    (hkw : dictGet args.kwargs "chapter_introduced" = none) :
    c.chapter_introduced = none ∧
    dictGet c.attributes "chapter_introduced" =
      some (AttrVal.ofOptInt args.chapter) ∧
    ∀ (repo : DummyStoryRepository) (n : Int) (k : String) (ch : Character),
      (k, ch) ∈ repo.characters → ch.chapter_introduced = none →
      ((k, ch) ∈ (repo.clear_chapter n).characters ∧
       (k, ch) ∈ (repo.clear_from_chapter_onwards n).characters) := by
  obtain ⟨pr, hpr⟩ : ∃ pr, Pronouns.from_subject
      (args.pronouns.getD draws.pronoun_choice) = .ok pr := by
    cases hpr : Pronouns.from_subject (args.pronouns.getD draws.pronoun_choice) with
    | error err =>
        simp only [FakerCharacterGenerator.generate] at hgen
        rw [hpr] at hgen
        exact Except.noConfusion hgen
    | ok pr => exact ⟨pr, rfl⟩
  have hc : c = ⟨args.character_id.getD draws.fresh_id,
      pyOr args.first_name draws.gen_first, draws.gen_middle_names,
      (if draws.hyphen_draw then
        draws.hyphen_last ++ "-" ++ pyOr args.last_name draws.gen_last
       else pyOr args.last_name draws.gen_last),
      some pr, none,
      dictUpdate
        [("description", .str draws.gen_description),
         ("age", .int draws.gen_age),
         ("occupation", .str draws.gen_occupation),
         ("chapter_introduced", AttrVal.ofOptInt args.chapter)]
        args.kwargs,
      []⟩ := by
    simp only [FakerCharacterGenerator.generate] at hgen
    rw [hpr] at hgen
    exact ((Except.ok.injEq _ _).mp hgen).symm
  subst hc
  refine ⟨rfl, ?_, ?_⟩
  · rw [dictGet_dictUpdate_of_none _ _ _ hkw]
    simp [dictGet]
  · intro repo n k ch hmem hnone
    constructor
    · simp only [DummyStoryRepository.clear_chapter]
      rw [List.mem_filter]
      exact ⟨hmem, by simp [hnone]⟩
    · simp only [DummyStoryRepository.clear_from_chapter_onwards]
      rw [List.mem_filter]
      exact ⟨hmem, by simp [hnone]⟩

/-- C10 witness: the concrete generated character has a `None`
`chapter_introduced`, records chapter 4 in its attribute map, and survives
both clears at chapter 5 when stored. -/
theorem C10_witness :
    c10Char.chapter_introduced = none ∧
    dictGet c10Char.attributes "chapter_introduced" =
      some (AttrVal.ofOptInt (some 4)) ∧
    (("z", c10Char) ∈ (c10Repo.clear_chapter 5).characters ∧
     ("z", c10Char) ∈ (c10Repo.clear_from_chapter_onwards 5).characters) := by
  have h := C10_faker_chars_immune c10Draws c10Args c10Char rfl rfl
  exact ⟨h.1, h.2.1, h.2.2 c10Repo 5 "z" c10Char (by decide) rfl⟩

end StoryJupyter
